import Mathlib

/-!
Verification of `homeassistant/components/zwave/migration.py`: the legacy
Z-Wave → OpenZWave / Z-Wave JS migration helper.

The Python module is shallowly embedded below.  Python dicts with string keys
are modelled as association lists with an overwriting insert (`dinsert`) and a
first-match lookup (`dlookup`); `dict.update` is `dupdate`.  Values of type
`int | str | None` inside a config entry's `data` dict are the inductive
`PyVal`; Python's `bool(...)` coercion on them is `PyVal.toBool`.  Fallible
Python code (the unguarded `device_entry.id` attribute access, which raises
`AttributeError` when the device-registry lookup returned `None`) is embedded
in `Except String`.
-/

namespace ZWaveMigration

/-- Overwriting insert, the semantics of `d[k] = v` on a Python dict modelled
as an association list (first occurrence of a key is the binding). -/
def dinsert (k : String) (v : α) : List (String × α) → List (String × α)
  | [] => [(k, v)]
  | (k', v') :: rest => if k' = k then (k, v) :: rest else (k', v') :: dinsert k v rest

/-- Lookup, the semantics of `d.get(k)` on a Python dict modelled as an
association list. -/
def dlookup (k : String) : List (String × α) → Option α
  | [] => none
  | (k', v) :: rest => if k' = k then some v else dlookup k rest

/-- `d.update(other)`: every binding of `other` is written into `d` in order. -/
def dupdate (d other : List (String × α)) : List (String × α) :=
  other.foldl (fun acc kv => dinsert kv.1 kv.2 acc) d

theorem dlookup_dinsert_self (k : String) (v : α) (d : List (String × α)) :
    dlookup k (dinsert k v d) = some v := by
  induction d with
  | nil => simp [dinsert, dlookup]
  | cons hd tl ih =>
    obtain ⟨k', v'⟩ := hd
    by_cases h : k' = k
    · simp [dinsert, dlookup, h]
    · simp [dinsert, dlookup, h, ih]

theorem dlookup_dinsert_ne (k k' : String) (v : α) (d : List (String × α))
    (h : k' ≠ k) : dlookup k' (dinsert k v d) = dlookup k' d := by
  have hne : ¬k = k' := fun hh => h hh.symm
  induction d with
  | nil => simp [dinsert, dlookup, hne]
  | cons hd tl ih =>
    obtain ⟨k₀, v₀⟩ := hd
    by_cases h₀ : k₀ = k
    · subst h₀
      simp [dinsert, dlookup, hne]
    · by_cases h₁ : k₀ = k'
      · simp [dinsert, dlookup, h₀, h₁, h]
      · simp [dinsert, dlookup, h₀, h₁, ih]

theorem mem_dinsert (k : String) (v : α) (d : List (String × α))
    (p : String × α) (hp : p ∈ dinsert k v d) : p = (k, v) ∨ p ∈ d := by
  induction d with
  | nil => simpa [dinsert] using hp
  | cons hd tl ih =>
    obtain ⟨k', v'⟩ := hd
    by_cases h : k' = k
    · simp only [dinsert, h, if_true] at hp
      rcases List.mem_cons.mp hp with h₁ | h₁
      · exact Or.inl h₁
      · exact Or.inr (List.mem_cons_of_mem _ h₁)
    · simp only [dinsert, h, if_false] at hp
      rcases List.mem_cons.mp hp with h₁ | h₁
      · exact Or.inr (h₁ ▸ List.mem_cons_self _ _)
      · rcases ih h₁ with h₂ | h₂
        · exact Or.inl h₂
        · exact Or.inr (List.mem_cons_of_mem _ h₂)

theorem dkeys_dinsert_subset (k : String) (v : α) (d : List (String × α))
    (k' : String) (hk : k' ∈ (dinsert k v d).map Prod.fst) :
    k' = k ∨ k' ∈ d.map Prod.fst := by
  rcases List.mem_map.mp hk with ⟨p, hp, hpk⟩
  rcases mem_dinsert k v d p hp with h | h
  · exact Or.inl (by rw [← hpk, h])
  · exact Or.inr (hpk ▸ List.mem_map_of_mem Prod.fst h)

theorem nodup_dkeys_dinsert (k : String) (v : α) (d : List (String × α))
    (hd : (d.map Prod.fst).Nodup) : ((dinsert k v d).map Prod.fst).Nodup := by
  induction d with
  | nil => simp [dinsert]
  | cons hd₀ tl ih =>
    obtain ⟨k', v'⟩ := hd₀
    simp only [List.map_cons, List.nodup_cons] at hd
    by_cases h : k' = k
    · subst h
      simpa [dinsert, List.nodup_cons] using hd
    · simp only [dinsert, h, if_false, List.map_cons, List.nodup_cons]
      refine ⟨fun hmem => ?_, ih hd.2⟩
      rcases dkeys_dinsert_subset k v tl k' hmem with h₁ | h₁
      · exact h h₁
      · exact hd.1 h₁

/-- A Python value of type `int | str | None | bool`, as stored in a config
entry's `data` dict. -/
inductive PyVal where
  | none
  | bool (b : Bool)
  | int (n : Int)
  | str (s : String)
deriving DecidableEq, Repr

/-- Python's `bool(...)` truthiness coercion on a `PyVal`. -/
def PyVal.toBool : PyVal → Bool
  | .none => false
  | .bool b => b
  | .int n => n ≠ 0
  | .str s => s ≠ ""

/-- A legacy Z-Wave node (`entity_values.primary.node`); only its `node_id`
is read by this module. -/
structure Node where
  node_id : Nat
deriving DecidableEq, Repr

/-- The primary value of a legacy value object (`entity_values.primary`).
The Python attribute `instance` is a Lean keyword, hence `instance_`. -/
structure ValuePrimary where
  node : Node
  instance_ : Nat
  command_class : Nat
  label : String
  index : Nat
deriving DecidableEq, Repr

/-- One legacy value object of `hass.data[DATA_ENTITY_VALUES]`. -/
structure EntityValues where
  primary : ValuePrimary
deriving DecidableEq, Repr

/-- An entity-registry entry, restricted to the attributes this module reads.
`config_entry_id` stands for the entry's owning config entry, which
`async_entries_for_config_entry` filters on. -/
structure RegistryEntry where
  unique_id : String
  domain : String
  entity_id : String
  unit_of_measurement : Option String
  config_entry_id : String
deriving DecidableEq, Repr

/-- A device-registry entry; only its `id` is read. -/
structure DeviceEntry where
  id : String
deriving DecidableEq, Repr

/-- The `DOMAIN` constant of the zwave component (`.const`). -/
def DOMAIN : String := "zwave"

/-- Modelled from the spec: `compute_value_unique_id` (from `.util`, not in
the sources given) is "a deterministic string computed from a legacy value
object's node/instance/class/index, used as registry lookup key"; the spec's
example maps node 5, instance 1, command class 38, index 0 to "5-1-38-0". -/
def compute_value_unique_id (node : Node) (value : ValuePrimary) : String :=
  toString node.node_id ++ "-" ++ toString value.instance_ ++ "-"
    ++ toString value.command_class ++ "-" ++ toString value.index

/-- The composite identifier used to look a node up in the device registry. -/
abbrev DeviceIdentifier := String × Nat × Nat

/-- Modelled from the spec: `node_device_id_and_name` (from `.util`, not in
the sources given) returns the "composite device identifier" for a node and
instance, plus a display name; only the identifier is used here. -/
def node_device_id_and_name (node : Node) (instance_ : Nat) :
    DeviceIdentifier × String :=
  ((DOMAIN, node.node_id, instance_), "Node " ++ toString node.node_id)

/-- One migration record: the flat dict built in `generate_data` (lines
112-123), with its ten fixed keys as fields. -/
structure MigrationRecord where
  node_id : Nat
  node_instance : Nat
  command_class : Nat
  command_class_label : String
  value_index : Nat
  device_id : String
  domain : String
  entity_id : String
  unique_id : String
  unit_of_measurement : Option String
deriving DecidableEq, Repr

/-- A per-scope record set: dict from unique id to migration record. -/
abbrev RecordSet := List (String × MigrationRecord)

/-- The handler's `_data`: dict from config-entry id to its record set. -/
abbrev AllData := List (String × RecordSet)

/-- A config entry: its `entry_id` and its stored `data` dict. -/
structure ConfigEntry where
  entry_id : String
  data : List (String × PyVal)
deriving DecidableEq, Repr

/-- The slice of `hass.config_entries` read by the status check: the entries
of each integration domain (`async_entries`). -/
structure ConfigEntries where
  async_entries : String → List ConfigEntry

/-- Embedding of `async_is_ozw_migrated` (lines 28-37): `False` when the "ozw" integration
has no config entries, otherwise `bool(first_entry.data.get("migrated"))`. -/
def async_is_ozw_migrated (config_entries : ConfigEntries) : Bool :=
  match config_entries.async_entries "ozw" with
  | [] => false
  | ozw_config_entry :: _ =>
    ((dlookup "migrated" ozw_config_entry.data).getD PyVal.none).toBool

/-- Embedding of `async_entries_for_config_entry`: the entity-registry entries belonging
to one config entry. -/
def async_entries_for_config_entry (ent_reg : List RegistryEntry)
    (entry_id : String) : List RegistryEntry :=
  ent_reg.filter (fun e => e.config_entry_id = entry_id)

/-- Embedding of `unique_entries = ...` (line 99), the dict comprehension
`{entry.unique_id: entry for entry in entity_entries}`: a dict comprehension, i.e. repeated overwriting insert. -/
def unique_entries (entity_entries : List RegistryEntry) :
    List (String × RegistryEntry) :=
  entity_entries.foldl (fun acc e => dinsert e.unique_id e acc) []

/-- The record literal of lines 112-123. -/
def mkRecord (p : ValuePrimary) (uid : String) (entity_entry : RegistryEntry)
    (device_entry : DeviceEntry) : MigrationRecord :=
  { node_id := p.node.node_id
    node_instance := p.instance_
    command_class := p.command_class
    command_class_label := p.label
    value_index := p.index
    device_id := device_entry.id
    domain := entity_entry.domain
    entity_id := entity_entry.entity_id
    unique_id := uid
    unit_of_measurement := entity_entry.unit_of_measurement }

/-- The unique id computed for a legacy value object in the loop of
`generate_data` (line 104). -/
def value_uid (ev : EntityValues) : String :=
  compute_value_unique_id ev.primary.node ev.primary

/-- The `for entity_values in self._hass.data[DATA_ENTITY_VALUES]` loop of
`generate_data` (lines 102-123), with `data` as accumulator.  A value whose
unique id has no entity-registry match is skipped (`continue`); for a matched
value, `dev_reg.async_get_device(...)` returning `None` makes the following
`device_entry.id` attribute access raise, embedded as `Except.error`. -/
def generate_loop (uentries : List (String × RegistryEntry))
    (dev_reg : DeviceIdentifier → Option DeviceEntry) (data : RecordSet) :
    List EntityValues → Except String RecordSet
  | [] => .ok data
  | entity_values :: rest =>
    let node := entity_values.primary.node
    let uid := compute_value_unique_id node entity_values.primary
    match dlookup uid uentries with
    | Option.none => generate_loop uentries dev_reg data rest
    | Option.some entity_entry =>
      match dev_reg (node_device_id_and_name node entity_values.primary.instance_).1 with
      | Option.none =>
        .error "AttributeError: NoneType object has no attribute id"
      | Option.some device_entry =>
        generate_loop uentries dev_reg
          (dinsert uid (mkRecord entity_values.primary uid entity_entry device_entry) data)
          rest

/-- The record-collection part of `generate_data` (lines 96-123): build
`unique_entries` from the scope's entity-registry entries, then run the loop
on the current legacy value objects starting from an empty dict. -/
def generate_records (entity_entries : List RegistryEntry)
    (dev_reg : DeviceIdentifier → Option DeviceEntry)
    (values : List EntityValues) : Except String RecordSet :=
  generate_loop (unique_entries entity_entries) dev_reg [] values

/-- The state of a `LegacyZWaveMigration` handler together with its `Store`:
`data` is the in-memory `_data` dict, `stored` the persisted snapshot the
store would load (`Option.none` when nothing was ever written), and
`pending_save` whether a debounced `async_delay_save` is outstanding. -/
structure MigrationState where
  data : AllData
  stored : Option AllData
  pending_save : Bool
deriving DecidableEq, Repr

/-- Embedding of `load_data` (lines 74-78): `self._data = stored` only when the loaded
snapshot is truthy, i.e. present and non-empty. -/
def load_data (st : MigrationState) : MigrationState :=
  match st.stored with
  | Option.none => st
  | Option.some s => if s.isEmpty then st else { st with data := s }

/-- Embedding of `save_data` (lines 80-86): `self._data.update(data)` followed by
scheduling a debounced write. -/
def save_data (st : MigrationState) (d : AllData) : MigrationState :=
  { st with data := dupdate st.data d, pending_save := true }

/-- The debounced write firing: `_data_to_save` (lines 88-91) is evaluated at
write time, so the whole current `_data` becomes the stored snapshot. -/
def flush_save (st : MigrationState) : MigrationState :=
  { st with stored := Option.some st.data, pending_save := false }

/-- Embedding of `generate_data` (lines 93-127) at state level: collect the records for
the scope and `save_data({config_entry.entry_id: data})`. -/
def generate_data (st : MigrationState) (ent_reg : List RegistryEntry)
    (dev_reg : DeviceIdentifier → Option DeviceEntry)
    (values : List EntityValues) (config_entry : ConfigEntry) :
    Except String MigrationState :=
  match generate_records
      (async_entries_for_config_entry ent_reg config_entry.entry_id)
      dev_reg values with
  | .error e => .error e
  | .ok data => .ok (save_data st [(config_entry.entry_id, data)])

/-- Embedding of `get_data` (lines 129-135): `await self.load_data()` then
`self._data.get(config_entry.entry_id) or {}`; returns the possibly reloaded
state and the result. -/
def get_data (st : MigrationState) (entry_id : String) :
    MigrationState × RecordSet :=
  let st' := load_data st
  (st', (dlookup entry_id st'.data).getD [])

/-- Modelled from the spec: the host platform's `singleton` helper
(`homeassistant.helpers.singleton`, not in the sources given) caches the
handler built by `get_legacy_zwave_migration` (lines 58-62) under a fixed key
in the platform instance's data, constructing it only when absent; `cached`
is that per-`hass` cache slot and `disk` the store's on-disk snapshot used to
initialise the handler (`_data = {}`).  Returns the handler and the updated
cache slot. -/
def get_legacy_zwave_migration (cached : Option MigrationState)
    (disk : Option AllData) : MigrationState × Option MigrationState :=
  match cached with
  | Option.some handler => (handler, Option.some handler)
  | Option.none =>
    let handler : MigrationState :=
      { data := [], stored := disk, pending_save := false }
    (handler, Option.some handler)

/-- Embedding of `async_generate_migration_data` (lines 40-47): fetch the singleton
handler and run `generate_data` on it; the mutated handler stays cached. -/
def async_generate_migration_data (cached : Option MigrationState)
    (disk : Option AllData) (ent_reg : List RegistryEntry)
    (dev_reg : DeviceIdentifier → Option DeviceEntry)
    (values : List EntityValues) (config_entry : ConfigEntry) :
    Except String (MigrationState × Option MigrationState) :=
  let handler := (get_legacy_zwave_migration cached disk).1
  match generate_data handler ent_reg dev_reg values config_entry with
  | .error e => .error e
  | .ok handler' => .ok (handler', Option.some handler')

/-- Embedding of `async_get_migration_data` (lines 49-55): fetch the singleton handler and
run `get_data` on it. -/
def async_get_migration_data (cached : Option MigrationState)
    (disk : Option AllData) (config_entry : ConfigEntry) :
    RecordSet × Option MigrationState :=
  let handler := (get_legacy_zwave_migration cached disk).1
  let (handler', res) := get_data handler config_entry.entry_id
  (res, Option.some handler')

theorem generate_loop_nil (U : List (String × RegistryEntry))
    (dev_reg : DeviceIdentifier → Option DeviceEntry) (data : RecordSet) :
    generate_loop U dev_reg data [] = .ok data := rfl

theorem generate_loop_cons (U : List (String × RegistryEntry))
    (dev_reg : DeviceIdentifier → Option DeviceEntry) (data : RecordSet)
    (ev : EntityValues) (rest : List EntityValues) :
    generate_loop U dev_reg data (ev :: rest) =
      match dlookup (value_uid ev) U with
      | Option.none => generate_loop U dev_reg data rest
      | Option.some entity_entry =>
        match dev_reg (node_device_id_and_name ev.primary.node ev.primary.instance_).1 with
        | Option.none => .error "AttributeError: NoneType object has no attribute id"
        | Option.some device_entry =>
          generate_loop U dev_reg
            (dinsert (value_uid ev)
              (mkRecord ev.primary (value_uid ev) entity_entry device_entry) data)
            rest := rfl

theorem generate_loop_append (U : List (String × RegistryEntry))
    (dev_reg : DeviceIdentifier → Option DeviceEntry)
    (l₁ l₂ : List EntityValues) (acc : RecordSet) :
    generate_loop U dev_reg acc (l₁ ++ l₂) =
      match generate_loop U dev_reg acc l₁ with
      | .ok mid => generate_loop U dev_reg mid l₂
      | .error e => .error e := by
  induction l₁ generalizing acc with
  | nil => simp [generate_loop_nil]
  | cons hd tl ih =>
    rw [List.cons_append, generate_loop_cons, generate_loop_cons]
    cases dlookup (value_uid hd) U with
    | none => exact ih acc
    | some entity_entry =>
      cases dev_reg (node_device_id_and_name hd.primary.node hd.primary.instance_).1 with
      | none => rfl
      | some device_entry => exact ih _

theorem generate_loop_frame (U : List (String × RegistryEntry))
    (dev_reg : DeviceIdentifier → Option DeviceEntry) (k : String) :
    ∀ (values : List EntityValues) (acc res : RecordSet),
      (∀ ev ∈ values, value_uid ev ≠ k) →
      generate_loop U dev_reg acc values = .ok res →
      dlookup k res = dlookup k acc := by
  intro values
  induction values with
  | nil =>
    intro acc res _ hok
    rw [generate_loop_nil] at hok
    cases hok
    rfl
  | cons hd tl ih =>
    intro acc res hne hok
    rw [generate_loop_cons] at hok
    cases h₁ : dlookup (value_uid hd) U with
    | none =>
      rw [h₁] at hok
      exact ih acc res (fun ev hev => hne ev (List.mem_cons_of_mem _ hev)) hok
    | some entity_entry =>
      rw [h₁] at hok
      cases h₂ : dev_reg (node_device_id_and_name hd.primary.node hd.primary.instance_).1 with
      | none => rw [h₂] at hok; cases hok
      | some device_entry =>
        rw [h₂] at hok
        have step := ih _ res (fun ev hev => hne ev (List.mem_cons_of_mem _ hev)) hok
        rw [step,
          dlookup_dinsert_ne _ _ _ _ (Ne.symm (hne hd (List.mem_cons_self _ _)))]

theorem generate_loop_keys_inv (U : List (String × RegistryEntry))
    (dev_reg : DeviceIdentifier → Option DeviceEntry) :
    ∀ (values : List EntityValues) (acc res : RecordSet),
      generate_loop U dev_reg acc values = .ok res →
      (∀ p ∈ acc, (p.2).unique_id = p.1) →
      (acc.map Prod.fst).Nodup →
      (∀ p ∈ res, (p.2).unique_id = p.1) ∧ (res.map Prod.fst).Nodup := by
  intro values
  induction values with
  | nil =>
    intro acc res hok hkeys hnd
    rw [generate_loop_nil] at hok
    cases hok
    exact ⟨hkeys, hnd⟩
  | cons hd tl ih =>
    intro acc res hok hkeys hnd
    rw [generate_loop_cons] at hok
    cases h₁ : dlookup (value_uid hd) U with
    | none =>
      rw [h₁] at hok
      exact ih acc res hok hkeys hnd
    | some entity_entry =>
      rw [h₁] at hok
      cases h₂ : dev_reg (node_device_id_and_name hd.primary.node hd.primary.instance_).1 with
      | none => rw [h₂] at hok; cases hok
      | some device_entry =>
        rw [h₂] at hok
        refine ih _ res hok (fun p hp => ?_) (nodup_dkeys_dinsert _ _ _ hnd)
        rcases mem_dinsert _ _ _ p hp with h | h
        · subst h; rfl
        · exact hkeys p h

theorem generate_loop_ok_of_devs (U : List (String × RegistryEntry))
    (dev_reg : DeviceIdentifier → Option DeviceEntry) :
    ∀ (values : List EntityValues) (acc : RecordSet),
      (∀ ev ∈ values,
        (dlookup (value_uid ev) U).isSome →
        (dev_reg (node_device_id_and_name ev.primary.node ev.primary.instance_).1).isSome) →
      ∃ res, generate_loop U dev_reg acc values = .ok res := by
  intro values
  induction values with
  | nil => intro acc _; exact ⟨acc, rfl⟩
  | cons hd tl ih =>
    intro acc hdev
    rw [generate_loop_cons]
    cases h₁ : dlookup (value_uid hd) U with
    | none => exact ih acc (fun ev hev => hdev ev (List.mem_cons_of_mem _ hev))
    | some entity_entry =>
      have hsome := hdev hd (List.mem_cons_self _ _) (by rw [h₁]; rfl)
      cases h₂ : dev_reg (node_device_id_and_name hd.primary.node hd.primary.instance_).1 with
      | none => rw [h₂] at hsome; cases hsome
      | some device_entry =>
        exact ih _ (fun ev hev => hdev ev (List.mem_cons_of_mem _ hev))

/-- Claim C1: every legacy value object whose computed unique id matches an
entity-registry entry of the configuration scope (and whose unique id is not
recomputed by a later value object, which would overwrite the dict slot)
yields a record whose ten fields are copied verbatim: node_id, node_instance,
command_class, command_class_label and value_index from the legacy value
object, device_id from the device-registry entry, and domain, entity_id,
unique_id and unit_of_measurement from the entity-registry entry. -/
theorem generate_records_matched_field_verbatim
    (entity_entries : List RegistryEntry)
    (dev_reg : DeviceIdentifier → Option DeviceEntry)
    (l₁ l₂ : List EntityValues) (ev : EntityValues)
    (entity_entry : RegistryEntry) (device_entry : DeviceEntry) (res : RecordSet)
    (hu : dlookup (value_uid ev) (unique_entries entity_entries) =
      Option.some entity_entry)
    (hd : dev_reg (node_device_id_and_name ev.primary.node ev.primary.instance_).1 =
      Option.some device_entry)
    (hlater : ∀ ev' ∈ l₂, value_uid ev' ≠ value_uid ev)
    (hok : generate_records entity_entries dev_reg (l₁ ++ ev :: l₂) = .ok res) :
    dlookup (value_uid ev) res = Option.some
      { node_id := ev.primary.node.node_id
        node_instance := ev.primary.instance_
        command_class := ev.primary.command_class
        command_class_label := ev.primary.label
        value_index := ev.primary.index
        device_id := device_entry.id
        domain := entity_entry.domain
        entity_id := entity_entry.entity_id
        unique_id := value_uid ev
        unit_of_measurement := entity_entry.unit_of_measurement } := by
  unfold generate_records at hok
  rw [generate_loop_append] at hok
  cases hmid : generate_loop (unique_entries entity_entries) dev_reg [] l₁ with
  | error e => rw [hmid] at hok; cases hok
  | ok mid =>
    rw [hmid] at hok
    replace hok : generate_loop (unique_entries entity_entries) dev_reg mid (ev :: l₂) =
      Except.ok res := hok
    rw [generate_loop_cons, hu, hd] at hok
    have step := generate_loop_frame _ dev_reg (value_uid ev) l₂ _ res hlater hok
    rw [step, dlookup_dinsert_self]
    rfl

/-- Claim C1 witness: the spec's concrete example (node 5, instance 1,
command class 38, label "Level", index 0, matched to entity "light.kitchen"
with unique id "5-1-38-0" and device "dev123") yields exactly the spec's
example record. -/
theorem generate_records_matched_field_verbatim_witness :
    dlookup "5-1-38-0"
      ([("5-1-38-0",
        { node_id := 5, node_instance := 1, command_class := 38,
          command_class_label := "Level", value_index := 0,
          device_id := "dev123", domain := "light",
          entity_id := "light.kitchen", unique_id := "5-1-38-0",
          unit_of_measurement := Option.none })] : RecordSet) = Option.some
      { node_id := 5, node_instance := 1, command_class := 38,
        command_class_label := "Level", value_index := 0,
        device_id := "dev123", domain := "light",
        entity_id := "light.kitchen", unique_id := "5-1-38-0",
        unit_of_measurement := Option.none } :=
  generate_records_matched_field_verbatim
    [{ unique_id := "5-1-38-0", domain := "light",
       entity_id := "light.kitchen", unit_of_measurement := Option.none,
       config_entry_id := "entry1" }]
    (fun _ => Option.some ⟨"dev123"⟩) [] [] ⟨⟨⟨5⟩, 1, 38, "Level", 0⟩⟩
    { unique_id := "5-1-38-0", domain := "light",
      entity_id := "light.kitchen", unit_of_measurement := Option.none,
      config_entry_id := "entry1" }
    ⟨"dev123"⟩ _ (by decide) rfl (by simp) rfl

/-- Claim C2 counterexample: a legacy value object that matches an
entity-registry entry but has no device-registry entry makes `generate_data`
raise (the `device_entry.id` access on `None`), so missing correspondences
are not all silently tolerated. -/
theorem generate_data_raises_on_missing_device :
    generate_data { data := [], stored := Option.none, pending_save := false }
      [{ unique_id := "5-1-38-0", domain := "light",
         entity_id := "light.kitchen", unit_of_measurement := Option.none,
         config_entry_id := "entry1" }]
      (fun _ => Option.none)
      [⟨⟨⟨5⟩, 1, 38, "Level", 0⟩⟩]
      { entry_id := "entry1", data := [] } =
    .error "AttributeError: NoneType object has no attribute id" := rfl

/-- Claim C2 (amended): a legacy value object whose unique id has no
entity-registry match is silently tolerated and `generate_data` completes;
but of the two correspondences only the entity-registry one may be missing:
whenever every value object matched in the entity registry also has a
device-registry entry, `generate_data` completes without raising. -/
theorem generate_data_no_raise
    (st : MigrationState) (ent_reg : List RegistryEntry)
    (dev_reg : DeviceIdentifier → Option DeviceEntry)
    (values : List EntityValues) (config_entry : ConfigEntry)
    (hdev : ∀ ev ∈ values,
      (dlookup (value_uid ev)
        (unique_entries
          (async_entries_for_config_entry ent_reg config_entry.entry_id))).isSome →
      (dev_reg (node_device_id_and_name ev.primary.node ev.primary.instance_).1).isSome) :
    ∃ st', generate_data st ent_reg dev_reg values config_entry = .ok st' := by
  obtain ⟨res, hres⟩ := generate_loop_ok_of_devs
    (unique_entries (async_entries_for_config_entry ent_reg config_entry.entry_id))
    dev_reg values [] hdev
  refine ⟨save_data st [(config_entry.entry_id, res)], ?_⟩
  unfold generate_data generate_records
  rw [hres]

/-- Claim C2 witness: with an empty entity registry, a legacy value object
(which then matches nothing) is tolerated and `generate_data` completes. -/
theorem generate_data_no_raise_witness :
    ∃ st', generate_data
      { data := [], stored := Option.none, pending_save := false }
      [] (fun _ => Option.none) [⟨⟨⟨5⟩, 1, 38, "Level", 0⟩⟩]
      { entry_id := "entry1", data := [] } = .ok st' :=
  generate_data_no_raise
    { data := [], stored := Option.none, pending_save := false }
    [] (fun _ => Option.none) [⟨⟨⟨5⟩, 1, 38, "Level", 0⟩⟩]
    { entry_id := "entry1", data := [] } (by decide)

/-- Claim C3: a legacy value object whose computed unique id has no matching
entity-registry entry for the scope is skipped silently: removing it from the
collection does not change the result of `generate_records`, so it produces
no record and no error, and the rest of the collection is still processed. -/
theorem generate_records_skips_unmatched
    (entity_entries : List RegistryEntry)
    (dev_reg : DeviceIdentifier → Option DeviceEntry)
    (l₁ l₂ : List EntityValues) (ev : EntityValues)
    (h : dlookup (value_uid ev) (unique_entries entity_entries) = Option.none) :
    generate_records entity_entries dev_reg (l₁ ++ ev :: l₂) =
      generate_records entity_entries dev_reg (l₁ ++ l₂) := by
  unfold generate_records
  rw [generate_loop_append, generate_loop_append]
  cases hmid : generate_loop (unique_entries entity_entries) dev_reg [] l₁ with
  | error e => rfl
  | ok mid =>
    show generate_loop (unique_entries entity_entries) dev_reg mid (ev :: l₂) =
      generate_loop (unique_entries entity_entries) dev_reg mid l₂
    rw [generate_loop_cons, h]

/-- Claim C3 witness: a value object whose unique id "5-1-38-0" is not the
registry's "9-9-9-9" is skipped: the run with it equals the run without it. -/
theorem generate_records_skips_unmatched_witness :
    generate_records
      [{ unique_id := "9-9-9-9", domain := "light",
         entity_id := "light.kitchen", unit_of_measurement := Option.none,
         config_entry_id := "entry1" }]
      (fun _ => Option.some ⟨"dev123"⟩)
      ([] ++ ⟨⟨⟨5⟩, 1, 38, "Level", 0⟩⟩ :: []) =
    generate_records
      [{ unique_id := "9-9-9-9", domain := "light",
         entity_id := "light.kitchen", unit_of_measurement := Option.none,
         config_entry_id := "entry1" }]
      (fun _ => Option.some ⟨"dev123"⟩) ([] ++ []) :=
  generate_records_skips_unmatched
    [{ unique_id := "9-9-9-9", domain := "light",
       entity_id := "light.kitchen", unit_of_measurement := Option.none,
       config_entry_id := "entry1" }]
    (fun _ => Option.some ⟨"dev123"⟩) [] [] ⟨⟨⟨5⟩, 1, 38, "Level", 0⟩⟩
    (by decide)

/-- Claim C8: every record set produced by `generate_records` is keyed by the
records' own unique ids — each stored record's `unique_id` field equals its
dict key — and its keys are pairwise distinct, so at most one record exists
per unique identifier. -/
theorem generate_records_keyed_by_unique_id
    (entity_entries : List RegistryEntry)
    (dev_reg : DeviceIdentifier → Option DeviceEntry)
    (values : List EntityValues) (res : RecordSet)
    (hok : generate_records entity_entries dev_reg values = .ok res) :
    (∀ p ∈ res, (p.2).unique_id = p.1) ∧ (res.map Prod.fst).Nodup :=
  generate_loop_keys_inv (unique_entries entity_entries) dev_reg values [] res
    hok (by simp) (by simp)

/-- Claim C8 witness: the record set generated for the spec's example is
keyed by "5-1-38-0", equal to the record's own `unique_id`, with no
duplicate keys. -/
theorem generate_records_keyed_by_unique_id_witness :
    (∀ p ∈ ([("5-1-38-0",
      { node_id := 5, node_instance := 1, command_class := 38,
        command_class_label := "Level", value_index := 0,
        device_id := "dev123", domain := "light",
        entity_id := "light.kitchen", unique_id := "5-1-38-0",
        unit_of_measurement := Option.none })] : RecordSet),
      (p.2).unique_id = p.1) ∧
    ((([("5-1-38-0",
      { node_id := 5, node_instance := 1, command_class := 38,
        command_class_label := "Level", value_index := 0,
        device_id := "dev123", domain := "light",
        entity_id := "light.kitchen", unique_id := "5-1-38-0",
        unit_of_measurement := Option.none })] : RecordSet)).map Prod.fst).Nodup :=
  generate_records_keyed_by_unique_id
    [{ unique_id := "5-1-38-0", domain := "light",
       entity_id := "light.kitchen", unit_of_measurement := Option.none,
       config_entry_id := "entry1" }]
    (fun _ => Option.some ⟨"dev123"⟩) [⟨⟨⟨5⟩, 1, 38, "Level", 0⟩⟩] _ rfl

theorem dupdate_singleton (d : List (String × α)) (k : String) (v : α) :
    dupdate d [(k, v)] = dinsert k v d := rfl

/-- Claim C4: a successful `generate_data` run for a configuration scope
replaces the handler's record set for that scope entirely with the newly
generated records (`_data.update({entry_id: data})` rebinds the whole slot),
leaves the record set of every other scope unchanged, does not touch the
stored snapshot immediately (the write is debounced), and leaves a pending
save. -/
theorem generate_data_overwrites_only_scope
    (st : MigrationState) (ent_reg : List RegistryEntry)
    (dev_reg : DeviceIdentifier → Option DeviceEntry)
    (values : List EntityValues) (config_entry : ConfigEntry)
    (st' : MigrationState)
    (hok : generate_data st ent_reg dev_reg values config_entry = .ok st') :
    (∃ recs,
      generate_records (async_entries_for_config_entry ent_reg config_entry.entry_id)
        dev_reg values = .ok recs
      ∧ dlookup config_entry.entry_id st'.data = Option.some recs)
    ∧ (∀ e', e' ≠ config_entry.entry_id →
        dlookup e' st'.data = dlookup e' st.data)
    ∧ st'.stored = st.stored ∧ st'.pending_save = true := by
  unfold generate_data at hok
  cases hrec : generate_records
      (async_entries_for_config_entry ent_reg config_entry.entry_id)
      dev_reg values with
  | error e => rw [hrec] at hok; cases hok
  | ok recs =>
    rw [hrec] at hok
    replace hok :
        (Except.ok (save_data st [(config_entry.entry_id, recs)]) :
          Except String MigrationState) = Except.ok st' := hok
    cases hok
    refine ⟨⟨recs, rfl, ?_⟩, fun e' hne => ?_, rfl, rfl⟩
    · show dlookup config_entry.entry_id
        (dupdate st.data [(config_entry.entry_id, recs)]) = Option.some recs
      rw [dupdate_singleton, dlookup_dinsert_self]
    · show dlookup e' (dupdate st.data [(config_entry.entry_id, recs)]) =
        dlookup e' st.data
      rw [dupdate_singleton, dlookup_dinsert_ne _ _ _ _ hne]

/-- Claim C4 witness: regenerating scope "entry1" (here with no legacy
values, so an empty record set) wholly replaces its prior set while scope
"other" keeps its records. -/
theorem generate_data_overwrites_only_scope_witness :
    (∃ recs,
      generate_records (async_entries_for_config_entry [] "entry1")
        (fun _ => Option.none) [] = .ok recs
      ∧ dlookup "entry1"
          ([("other", [("x",
              { node_id := 1, node_instance := 1, command_class := 38,
                command_class_label := "Level", value_index := 0,
                device_id := "d", domain := "light", entity_id := "light.a",
                unique_id := "x", unit_of_measurement := Option.none })]),
            ("entry1", [])] : AllData) = Option.some recs)
    ∧ (∀ e', e' ≠ "entry1" →
        dlookup e'
          ([("other", [("x",
              { node_id := 1, node_instance := 1, command_class := 38,
                command_class_label := "Level", value_index := 0,
                device_id := "d", domain := "light", entity_id := "light.a",
                unique_id := "x", unit_of_measurement := Option.none })]),
            ("entry1", [])] : AllData) =
        dlookup e'
          ([("other", [("x",
              { node_id := 1, node_instance := 1, command_class := 38,
                command_class_label := "Level", value_index := 0,
                device_id := "d", domain := "light", entity_id := "light.a",
                unique_id := "x", unit_of_measurement := Option.none })]),
            ("entry1", [("old",
              { node_id := 5, node_instance := 1, command_class := 38,
                command_class_label := "Level", value_index := 0,
                device_id := "dev123", domain := "light",
                entity_id := "light.kitchen", unique_id := "old",
                unit_of_measurement := Option.none })])] : AllData))
    ∧ (Option.none : Option AllData) = Option.none ∧ true = true :=
  generate_data_overwrites_only_scope
    { data := [("other", [("x",
        { node_id := 1, node_instance := 1, command_class := 38,
          command_class_label := "Level", value_index := 0,
          device_id := "d", domain := "light", entity_id := "light.a",
          unique_id := "x", unit_of_measurement := Option.none })]),
      ("entry1", [("old",
        { node_id := 5, node_instance := 1, command_class := 38,
          command_class_label := "Level", value_index := 0,
          device_id := "dev123", domain := "light",
          entity_id := "light.kitchen", unique_id := "old",
          unit_of_measurement := Option.none })])],
      stored := Option.none, pending_save := false }
    [] (fun _ => Option.none) [] { entry_id := "entry1", data := [] } _ rfl

/-- Claim C5: when the persistence backend holds a non-empty snapshot,
`get_data` loads it and returns exactly the snapshot's record set for the
caller's configuration scope, and returns the empty mapping when the
snapshot has no records for that scope. -/
theorem get_data_returns_stored_scope_subset
    (st : MigrationState) (S : AllData) (entry_id : String)
    (hs : st.stored = Option.some S) (hne : S ≠ []) :
    (get_data st entry_id).2 = (dlookup entry_id S).getD []
    ∧ (dlookup entry_id S = Option.none → (get_data st entry_id).2 = [])
    ∧ (∀ e' : String,
        (get_data { data := [], stored := Option.none, pending_save := false }
          e').2 = []) := by
  have hload : load_data st = { st with data := S } := by
    unfold load_data
    rw [hs]
    cases S with
    | nil => cases hne rfl
    | cons a tl => rfl
  refine ⟨?_, fun hnone => ?_, fun e' => rfl⟩
  · simp [get_data, hload]
  · simp [get_data, hload, hnone]

/-- Claim C5 witness: with a stored snapshot holding one record set for
scope "e1", `get_data` for "e1" returns exactly it (and would return the
empty mapping were the scope absent from the snapshot). -/
theorem get_data_returns_stored_scope_subset_witness :
    (get_data
      { data := [], stored := Option.some [("e1", [("5-1-38-0",
          { node_id := 5, node_instance := 1, command_class := 38,
            command_class_label := "Level", value_index := 0,
            device_id := "dev123", domain := "light",
            entity_id := "light.kitchen", unique_id := "5-1-38-0",
            unit_of_measurement := Option.none })])],
        pending_save := false } "e1").2 =
      (dlookup "e1" ([("e1", [("5-1-38-0",
          { node_id := 5, node_instance := 1, command_class := 38,
            command_class_label := "Level", value_index := 0,
            device_id := "dev123", domain := "light",
            entity_id := "light.kitchen", unique_id := "5-1-38-0",
            unit_of_measurement := Option.none })])] : AllData)).getD []
    ∧ (dlookup "e1" ([("e1", [("5-1-38-0",
          { node_id := 5, node_instance := 1, command_class := 38,
            command_class_label := "Level", value_index := 0,
            device_id := "dev123", domain := "light",
            entity_id := "light.kitchen", unique_id := "5-1-38-0",
            unit_of_measurement := Option.none })])] : AllData) = Option.none →
        (get_data
          { data := [], stored := Option.some [("e1", [("5-1-38-0",
              { node_id := 5, node_instance := 1, command_class := 38,
                command_class_label := "Level", value_index := 0,
                device_id := "dev123", domain := "light",
                entity_id := "light.kitchen", unique_id := "5-1-38-0",
                unit_of_measurement := Option.none })])],
            pending_save := false } "e1").2 = [])
    ∧ (∀ e' : String,
        (get_data { data := [], stored := Option.none, pending_save := false }
          e').2 = []) :=
  get_data_returns_stored_scope_subset
    { data := [], stored := Option.some [("e1", [("5-1-38-0",
        { node_id := 5, node_instance := 1, command_class := 38,
          command_class_label := "Level", value_index := 0,
          device_id := "dev123", domain := "light",
          entity_id := "light.kitchen", unique_id := "5-1-38-0",
          unit_of_measurement := Option.none })])],
      pending_save := false }
    [("e1", [("5-1-38-0",
        { node_id := 5, node_instance := 1, command_class := 38,
          command_class_label := "Level", value_index := 0,
          device_id := "dev123", domain := "light",
          entity_id := "light.kitchen", unique_id := "5-1-38-0",
          unit_of_measurement := Option.none })])]
    "e1" rfl (by decide)

/-- Claim C6: with zero config entries for the destination integration
"ozw", the migration-status check returns `false`. -/
theorem async_is_ozw_migrated_no_entries (config_entries : ConfigEntries)
    (h : config_entries.async_entries "ozw" = []) :
    async_is_ozw_migrated config_entries = false := by
  unfold async_is_ozw_migrated
  rw [h]

/-- Claim C6 witness: a platform with no config entries at all reports
not-migrated. -/
theorem async_is_ozw_migrated_no_entries_witness :
    async_is_ozw_migrated ⟨fun _ => []⟩ = false :=
  async_is_ozw_migrated_no_entries ⟨fun _ => []⟩ rfl

/-- Claim C7: with at least one "ozw" config entry, the status check returns
exactly the boolean value of the first entry's "migrated" field, computed as
Python's `bool(...)` of `data.get("migrated")`; the embedding is a pure
function of the config entries, so the read is idempotent and changes no
state. -/
theorem async_is_ozw_migrated_reads_first_entry_flag
    (config_entries : ConfigEntries) (entry : ConfigEntry)
    (rest : List ConfigEntry) (b : Bool)
    (h : config_entries.async_entries "ozw" = entry :: rest)
    (hb : dlookup "migrated" entry.data = Option.some (PyVal.bool b)) :
    async_is_ozw_migrated config_entries = b
    ∧ async_is_ozw_migrated config_entries =
        ((dlookup "migrated" entry.data).getD PyVal.none).toBool := by
  have hmain : async_is_ozw_migrated config_entries =
      ((dlookup "migrated" entry.data).getD PyVal.none).toBool := by
    unfold async_is_ozw_migrated
    rw [h]
  refine ⟨?_, hmain⟩
  rw [hmain, hb]
  rfl

/-- Claim C7 witness: one "ozw" entry with `{"migrated": True}` makes the
status check return `true`. -/
theorem async_is_ozw_migrated_reads_first_entry_flag_witness :
    async_is_ozw_migrated
      ⟨fun d => if d = "ozw"
        then [{ entry_id := "o1", data := [("migrated", PyVal.bool true)] }]
        else []⟩ = true
    ∧ async_is_ozw_migrated
        ⟨fun d => if d = "ozw"
          then [{ entry_id := "o1", data := [("migrated", PyVal.bool true)] }]
          else []⟩ =
      ((dlookup "migrated"
        ([("migrated", PyVal.bool true)] : List (String × PyVal))).getD
          PyVal.none).toBool :=
  async_is_ozw_migrated_reads_first_entry_flag
    ⟨fun d => if d = "ozw"
      then [{ entry_id := "o1", data := [("migrated", PyVal.bool true)] }]
      else []⟩
    { entry_id := "o1", data := [("migrated", PyVal.bool true)] } [] true
    (by decide) rfl

/-- Claim C9: `load_data` replaces the whole in-memory record set with the
stored snapshot whenever the snapshot is non-empty, and leaves the in-memory
set unchanged when the snapshot is absent or empty; hence records merged by
`save_data` whose debounced write has not yet fired are discarded, and a
`get_data` call in that window returns the older stored snapshot's subset,
not the just-merged records. -/
theorem load_data_snapshot_replaces_memory
    (st : MigrationState) (S d : AllData) (entry_id : String)
    (hs : st.stored = Option.some S) (hne : S ≠ []) :
    (load_data st).data = S
    ∧ (get_data (save_data st d) entry_id).2 = (dlookup entry_id S).getD []
    ∧ (∀ st₀ : MigrationState, st₀.stored = Option.none → load_data st₀ = st₀)
    ∧ (∀ st₀ : MigrationState, st₀.stored = Option.some [] → load_data st₀ = st₀) := by
  have hsave : (save_data st d).stored = Option.some S := hs
  have hload : ∀ st₁ : MigrationState, st₁.stored = Option.some S →
      load_data st₁ = { st₁ with data := S } := by
    intro st₁ h₁
    unfold load_data
    rw [h₁]
    cases S with
    | nil => cases hne rfl
    | cons a tl => rfl
  refine ⟨?_, ?_, fun st₀ h₀ => ?_, fun st₀ h₀ => ?_⟩
  · rw [hload st hs]
  · simp [get_data, hload _ hsave]
  · unfold load_data; rw [h₀]
  · unfold load_data; rw [h₀]; rfl

/-- Claim C9 witness: a record set for "e1" merged by `save_data` but not
yet flushed is discarded by the next `get_data`, which returns the older
stored snapshot's (empty) record set for "e1". -/
theorem load_data_snapshot_replaces_memory_witness :
    (load_data
      { data := [], stored := Option.some [("e1", [])],
        pending_save := false }).data = [("e1", [])]
    ∧ (get_data (save_data
        { data := [], stored := Option.some [("e1", [])],
          pending_save := false }
        [("e1", [("5-1-38-0",
          { node_id := 5, node_instance := 1, command_class := 38,
            command_class_label := "Level", value_index := 0,
            device_id := "dev123", domain := "light",
            entity_id := "light.kitchen", unique_id := "5-1-38-0",
            unit_of_measurement := Option.none })])]) "e1").2 =
      (dlookup "e1" ([("e1", [])] : AllData)).getD []
    ∧ (∀ st₀ : MigrationState, st₀.stored = Option.none → load_data st₀ = st₀)
    ∧ (∀ st₀ : MigrationState, st₀.stored = Option.some [] → load_data st₀ = st₀) :=
  load_data_snapshot_replaces_memory
    { data := [], stored := Option.some [("e1", [])], pending_save := false }
    [("e1", [])]
    [("e1", [("5-1-38-0",
      { node_id := 5, node_instance := 1, command_class := 38,
        command_class_label := "Level", value_index := 0,
        device_id := "dev123", domain := "light",
        entity_id := "light.kitchen", unique_id := "5-1-38-0",
        unit_of_measurement := Option.none })])]
    "e1" rfl (by decide)

/-- Claim C10: the singleton accessor is idempotent per platform instance —
a second call with the cache left by the first returns the very same handler
and cache — and the wrappers `async_generate_migration_data` and
`async_get_migration_data` both act on the handler the accessor returns, so
with the same platform instance they share its in-memory state. -/
theorem get_legacy_zwave_migration_idempotent
    (cached : Option MigrationState) (disk : Option AllData)
    (config_entry : ConfigEntry) :
    (get_legacy_zwave_migration ((get_legacy_zwave_migration cached disk).2) disk).1 =
      (get_legacy_zwave_migration cached disk).1
    ∧ (get_legacy_zwave_migration ((get_legacy_zwave_migration cached disk).2) disk).2 =
      (get_legacy_zwave_migration cached disk).2
    ∧ (get_legacy_zwave_migration cached disk).2 =
        Option.some (get_legacy_zwave_migration cached disk).1
    ∧ (async_get_migration_data cached disk config_entry).1 =
        (get_data (get_legacy_zwave_migration cached disk).1
          config_entry.entry_id).2 := by
  cases cached <;>
    simp [get_legacy_zwave_migration, async_get_migration_data, get_data]

end ZWaveMigration
